import Mathlib

/-!
Verification of the Moltbook client (TypeScript library `src/index.ts` and the
bash CLI script) against its design specification. JavaScript/JSON values are
modelled by an explicit `Json` inductive; JavaScript truthiness, property
access (including the `TypeError` thrown by property access on `null`) and
template stringification are modelled explicitly so the client functions can be
translated statement by statement.
-/

/-- An exact decimal number `mant * 10 ^ (-exp)`: the value any JSON number
literal denotes (IEEE double rounding is not modelled). Values produced by the
parsers below are canonical — no trailing zero digits in the fraction — so
structural equality coincides with value equality on them, and all operations
are structural recursion over `Int`/`Nat`, so they evaluate in the kernel. -/
structure DecNum where
  mant : Int
  exp : Nat
deriving DecidableEq, Repr

namespace DecNum

/-- Canonical form: strip factors of ten out of the mantissa while the
exponent is positive. -/
def canon : Int → Nat → DecNum
  | m, 0 => ⟨m, 0⟩
  | m, e + 1 => if m % 10 = 0 then canon (m / 10) e else ⟨m, e + 1⟩

instance : NatCast DecNum := ⟨fun n => ⟨n, 0⟩⟩

instance (n : Nat) : OfNat DecNum n := ⟨⟨n, 0⟩⟩

instance : Neg DecNum := ⟨fun d => ⟨-d.mant, d.exp⟩⟩

instance : Add DecNum :=
  ⟨fun a b => canon (a.mant * 10 ^ b.exp + b.mant * 10 ^ a.exp) (a.exp + b.exp)⟩

instance : Sub DecNum := ⟨fun a b => a + (-b)⟩

instance : LE DecNum := ⟨fun a b => a.mant * 10 ^ b.exp ≤ b.mant * 10 ^ a.exp⟩

instance : LT DecNum := ⟨fun a b => a.mant * 10 ^ b.exp < b.mant * 10 ^ a.exp⟩

instance (a b : DecNum) : Decidable (a ≤ b) :=
  inferInstanceAs (Decidable (a.mant * 10 ^ b.exp ≤ b.mant * 10 ^ a.exp))

instance (a b : DecNum) : Decidable (a < b) :=
  inferInstanceAs (Decidable (a.mant * 10 ^ b.exp < b.mant * 10 ^ a.exp))

/-- The plain decimal rendering, as JavaScript and `jq` print JSON numbers:
integers without a decimal point, other values as sign, integer digits, point
and fraction digits (canonical input means no trailing zeros); exponential
display of extreme magnitudes is not modelled. -/
def render (d : DecNum) : String :=
  if d.exp = 0 then toString d.mant
  else
    let digits := toString d.mant.natAbs
    let padded :=
      if digits.length ≤ d.exp then
        String.mk (List.replicate (d.exp + 1 - digits.length) (Char.ofNat 48)) ++ digits
      else digits
    (if d.mant < 0 then ("-") else ("")) ++
      String.mk (padded.data.take (padded.length - d.exp)) ++ (".") ++
      String.mk (padded.data.drop (padded.length - d.exp))

end DecNum

/-- A JSON value, as produced by `JSON.parse`. Numbers are exact decimals
(`DecNum`). -/
inductive Json where
  | null : Json
  | bool (b : Bool) : Json
  | num (n : DecNum) : Json
  | str (s : String) : Json
  | arr (xs : List Json) : Json
  | obj (fields : List (String × Json)) : Json
deriving Repr

namespace Json


/-- JavaScript truthiness of a JSON value: `null`, `false`, `0` and the empty
string are falsy; every array and object is truthy. -/
def jsTruthy : Json → Bool
  | null => false
  | bool b => b
  | num n => n.mant != 0
  | str s => s != ""
  | arr _ => true
  | obj _ => true

/-- Total property lookup `v.name`: a field of an object, `none` (undefined)
for every non-object receiver. Only used where the receiver cannot be `null`
(property access on `null` throws; see `jsGet`). -/
def jsField : Json → String → Option Json
  | obj fields, name => (fields.find? (fun p => p.1 == name)).map (fun p => p.2)
  | _, _ => none

/-- JavaScript property access `v.name` with the `TypeError` thrown on a `null`
receiver made explicit. `none` is JavaScript `undefined`. -/
def jsGet : Json → String → Except Unit (Option Json)
  | null, _ => Except.error ()
  | v, name => Except.ok (jsField v name)

theorem jsGet_of_ne_null (v : Json) (name : String) (h : v ≠ null) :
    jsGet v name = Except.ok (jsField v name) := by
  cases v <;> simp_all [jsGet]

/-- Optional chaining `v?.name`: `undefined` on an absent or `null` receiver,
ordinary property access otherwise. -/
def jsFieldOpt : Option Json → String → Option Json
  | none, _ => none
  | some null, _ => none
  | some v, name => jsField v name

mutual

/-- JavaScript string coercion (template literals, `new Error(x)`): arrays
join their elements with commas (`null` elements turning into the empty
string), objects print as `[object Object]`. -/
def jsToString : Json → String
  | null => "null"
  | bool b => cond b ("true") ("false")
  | num n => DecNum.render n
  | str s => s
  | arr xs => String.intercalate (",") (jsToStringElems xs)
  | obj _ => "[object Object]"

/-- The element strings an array joins (`null` becomes the empty string). -/
def jsToStringElems : List Json → List String
  | [] => []
  | null :: js => "" :: jsToStringElems js
  | j :: js => jsToString j :: jsToStringElems js

end

/-- The JSON escape of one character as mandated by `JSON.stringify`. -/
def escapeChar (c : Char) : List Char :=
  let bs : Char := Char.ofNat 92
  if c = Char.ofNat 34 then [bs, Char.ofNat 34]
  else if c = bs then [bs, bs]
  else if c = Char.ofNat 8 then [bs, Char.ofNat 98]
  else if c = Char.ofNat 12 then [bs, Char.ofNat 102]
  else if c = Char.ofNat 10 then [bs, Char.ofNat 110]
  else if c = Char.ofNat 13 then [bs, Char.ofNat 114]
  else if c = Char.ofNat 9 then [bs, Char.ofNat 116]
  else if c.toNat < 32 then
    [bs, Char.ofNat 117, Char.ofNat 48, Char.ofNat 48,
     hexChar (c.toNat / 16), hexChar (c.toNat % 16)]
  else [c]
where
  /-- Lower-case hex digit. -/
  hexChar (n : Nat) : Char :=
    if n < 10 then Char.ofNat (48 + n) else Char.ofNat (87 + n)

/-- `JSON.stringify` of a string value: surrounding quotes plus escapes. -/
def stringifyStr (s : String) : String :=
  String.mk (Char.ofNat 34 :: s.data.flatMap escapeChar ++ [Char.ofNat 34])

mutual

/-- `JSON.stringify`, the serializer the dispatcher applies to a request body. -/
def stringify : Json → String
  | null => "null"
  | bool b => cond b ("true") ("false")
  | num n => DecNum.render n
  | str s => stringifyStr s
  | arr xs =>
    String.singleton (Char.ofNat 91) ++
      String.intercalate (",") (stringifyList xs) ++
      String.singleton (Char.ofNat 93)
  | obj fields =>
    String.singleton (Char.ofNat 123) ++
      String.intercalate (",") (stringifyFields fields) ++
      String.singleton (Char.ofNat 125)

/-- Serialized array elements. -/
def stringifyList : List Json → List String
  | [] => []
  | j :: js => stringify j :: stringifyList js

/-- Serialized object members, `"key":value` each. -/
def stringifyFields : List (String × Json) → List String
  | [] => []
  | (k, v) :: fs => (stringifyStr k ++ (":") ++ stringify v) :: stringifyFields fs

end

end Json

/-! ## Percent-encoding (`encodeURIComponent`) -/

/-- The UTF-8 bytes of a character, in the standard mask-and-shift
formulation (`0xC0 | ((n >> 6) & 0x1F)` is `192 + n / 64 % 32`, and so on). -/
def utf8Bytes (c : Char) : List Nat :=
  let n := c.toNat
  if n < 128 then [n]
  else if n < 2048 then [192 + n / 64 % 32, 128 + n % 64]
  else if n < 65536 then [224 + n / 4096 % 16, 128 + n / 64 % 64, 128 + n % 64]
  else [240 + n / 262144 % 8, 128 + n / 4096 % 64, 128 + n / 64 % 64, 128 + n % 64]

/-- Upper-case hex digit, as produced by percent-encoding. -/
def hexDigitUpper (n : Nat) : Char :=
  if n < 10 then Char.ofNat (48 + n) else Char.ofNat (55 + n)

/-- The characters `encodeURIComponent` leaves unescaped: ASCII alphanumerics
and `- _ . ! ~ * ' ( )`. -/
def isUriUnreserved (c : Char) : Bool :=
  c.isAlphanum || c = Char.ofNat 45 || c = Char.ofNat 95 || c = Char.ofNat 46 ||
    c = Char.ofNat 33 || c = Char.ofNat 126 || c = Char.ofNat 42 ||
    c = Char.ofNat 39 || c = Char.ofNat 40 || c = Char.ofNat 41

/-- Percent-encoding of a single character: `%XX` for each UTF-8 byte. -/
def percentEncodeChar (c : Char) : List Char :=
  (utf8Bytes c).flatMap (fun b =>
    [Char.ofNat 37, hexDigitUpper (b / 16), hexDigitUpper (b % 16)])

/-- `encodeURIComponent`, character by character. -/
def encodeURIComponent (s : String) : String :=
  String.mk (s.data.flatMap (fun c =>
    if isUriUnreserved c then [c] else percentEncodeChar c))

/-! ## Credential resolution (`getApiKey` in `src/index.ts`, `get_api_key` in
the CLI script) -/

/-- The state of `~/.config/moltbook/credentials.json`: absent, present but not
valid JSON (`JSON.parse` throws), or present and parsed to a value. -/
inductive FileState where
  | absent : FileState
  | unparseable : FileState
  | parsed (config : Json) : FileState

/-- The process environment and file system state credential resolution reads:
`process.env.HOME`, `process.env.MOLTBOOK_API_KEY` (with `none` meaning unset)
and the credentials file. -/
structure CredEnv where
  home : Option String
  moltbook_api_key : Option String
  configFile : FileState

/-- `CONFIG_FILE = path.join(process.env.HOME || '', '.config/moltbook/credentials.json')`. -/
def CONFIG_FILE (env : CredEnv) : String :=
  (env.home.getD ("")) ++ ("/.config/moltbook/credentials.json")

/-- The message of the error thrown when no credential resolves
(src/index.ts lines 94-97). -/
def noCredMsg (env : CredEnv) : String :=
  ("No API key found. Set MOLTBOOK_API_KEY environment variable or create ") ++
    CONFIG_FILE env ++
    (" with \x7b\"api_key\": \"your_key_here\"\x7d")

/-- The config-file half of `getApiKey` (the `try` block, src/index.ts lines
83-92): a parse error, an absent/falsy `api_key` field, and the `TypeError` of
a field access on parsed `null` are all caught and fall through to the
`No API key found` error. -/
def getApiKeyFromFile (env : CredEnv) : Except String Json :=
  match env.configFile with
  | FileState.parsed config =>
    match Json.jsGet config ("api_key") with
    | Except.ok (some v) =>
      if Json.jsTruthy v then Except.ok v else Except.error (noCredMsg env)
    | Except.ok none => Except.error (noCredMsg env)
    | Except.error _ => Except.error (noCredMsg env)
  | _ => Except.error (noCredMsg env)

/-- `getApiKey` (src/index.ts lines 76-98): the environment variable wins when
truthy (set and non-empty), otherwise the config file is consulted. -/
def getApiKey (env : CredEnv) : Except String Json :=
  match env.moltbook_api_key with
  | some k => if k ≠ ("") then Except.ok (Json.str k) else getApiKeyFromFile env
  | none => getApiKeyFromFile env

/-- The truthy `api_key` value a file state yields, if any (used to phrase
hypotheses; `getApiKeyFromFile` succeeds exactly when this is `some`). -/
def fileKey : FileState → Option Json
  | FileState.parsed config =>
    match Json.jsGet config ("api_key") with
    | Except.ok (some v) => if Json.jsTruthy v then some v else none
    | _ => none
  | _ => none

/-- `get_api_key` of the CLI script (lines 11-19): echo the environment
variable if non-empty, else `jq -r '.api_key // empty'` on the config file
(errors silenced, so a missing file, a parse error, a non-object document, an
absent field, and `null`/`false` values all come out as the empty string). -/
def get_api_key_sh (envKey : Option String) (file : FileState) : String :=
  match envKey with
  | some k => if k ≠ ("") then k else get_api_key_sh_file file
  | none => get_api_key_sh_file file
where
  /-- `jq -r '.api_key // empty' "$CONFIG_FILE" 2>/dev/null`. Raw output:
  strings print unquoted; compound values are approximated by their compact
  serialization (the claims never exercise them). -/
  get_api_key_sh_file : FileState → String
    | FileState.parsed (Json.obj fields) =>
      match (fields.find? (fun p => p.1 == ("api_key"))).map (fun p => p.2) with
      | some Json.null => ""
      | some (Json.bool false) => ""
      | some (Json.bool true) => "true"
      | some (Json.str s) => s
      | some (Json.num n) => DecNum.render n
      | some v => Json.stringify v
      | none => ""
    | FileState.parsed Json.null => ""
    | _ => ""

/-! ## The request dispatcher (`apiRequest`, src/index.ts lines 103-150) -/

/-- The normalized envelope the dispatcher resolves with. `data` and `error`
hold arbitrary JSON values (the TypeScript types them loosely). -/
structure ApiResponse where
  success : Bool
  data : Option Json
  error : Option Json

/-- One HTTPS request as the library issues it: the options given to
`https.request` plus the body written with `req.write` (absent when no
`data` argument was given). -/
structure Request where
  method : String
  hostname : String
  path : String
  authorization : String
  contentType : String
  userAgent : String
  body : Option String
deriving DecidableEq

/-- What the server answers: a status code (`none` models a missing
`res.statusCode`) and the body, pre-classified by whether `JSON.parse`
succeeds on it (`none` = unparseable). -/
structure HttpResp where
  statusCode : Option Nat
  parseResult : Option Json

/-- A mock transport: the answer the wire produces for each request. -/
def Transport : Type := Request → HttpResp

/-- `res.statusCode && res.statusCode >= 200 && res.statusCode < 300`. -/
def statusOk : Option Nat → Bool
  | some n => decide (200 ≤ n) && decide (n < 300)
  | none => false

/-- The envelope resolved from the `catch` branch. -/
def parseFailEnvelope : ApiResponse :=
  { success := false, data := none, error := some (Json.str ("Failed to parse response")) }

/-- `parsed.error || parsed.message || 'Request failed'`, with JavaScript
evaluation order: property access on a `null` body throws (and the dispatcher
catches it with the same `catch` as a parse failure). -/
def errValue (parsed : Json) : Except Unit Json :=
  match Json.jsGet parsed ("error") with
  | Except.error e => Except.error e
  | Except.ok (some v) =>
    if Json.jsTruthy v then Except.ok v else errValueMessage parsed
  | Except.ok none => errValueMessage parsed
where
  /-- `parsed.message || 'Request failed'`. -/
  errValueMessage (parsed : Json) : Except Unit Json :=
    match Json.jsGet parsed ("message") with
    | Except.error e => Except.error e
    | Except.ok (some v) =>
      if Json.jsTruthy v then Except.ok v else Except.ok (Json.str ("Request failed"))
    | Except.ok none => Except.ok (Json.str ("Request failed"))

/-- The `res.on('end')` handler (src/index.ts lines 126-137): parse the body,
resolve a success envelope on a 2xx status, otherwise resolve a failure
envelope with the body's error or message, the whole wrapped in a `try` whose
`catch` resolves the parse-failure envelope. -/
def handleEnd (statusCode : Option Nat) (parseResult : Option Json) : ApiResponse :=
  match parseResult with
  | none => parseFailEnvelope
  | some parsed =>
    if statusOk statusCode then { success := true, data := some parsed, error := none }
    else
      match errValue parsed with
      | Except.ok v => { success := false, data := none, error := some v }
      | Except.error _ => parseFailEnvelope

/-- The request value `apiRequest` builds for a call (hostname, path prefix
and the three unconditional headers, src/index.ts lines 112-121, body
serialization lines 144-146). -/
def mkRequest (key : Json) (method endpoint : String) (data : Option Json) : Request :=
  { method := method
    hostname := "www.moltbook.com"
    path := ("/api/v1") ++ endpoint
    authorization := ("Bearer ") ++ Json.jsToString key
    contentType := "application/json"
    userAgent := "OpenClaw-Moltbook-Skill/1.0.0"
    body := data.map Json.stringify }

/-- `apiRequest` (src/index.ts lines 103-150): resolve the credential (a
failure rejects before any request is issued), issue one request, normalize
the answer. The returned list is the trace of requests put on the wire. -/
def apiRequest (env : CredEnv) (t : Transport) (method endpoint : String)
    (data : Option Json) : List Request × Except String ApiResponse :=
  match getApiKey env with
  | Except.error e => ([], Except.error e)
  | Except.ok key =>
    let req := mkRequest key method endpoint data
    ([req], Except.ok (handleEnd (t req).statusCode (t req).parseResult))

/-! ## Library verb wrappers (src/index.ts) -/

/-- `result.error || fallbackMsg`, the message of the `Error` the wrappers
throw on a failed envelope (string coercion of a non-string `error`). -/
def errMsg (r : ApiResponse) (fallback : String) : String :=
  match r.error with
  | some v => if Json.jsTruthy v then Json.jsToString v else fallback
  | none => fallback

/-- Truthiness of an optional value (`undefined` is falsy). -/
def optTruthy : Option Json → Bool
  | none => false
  | some v => Json.jsTruthy v

/-- `v || []` for an optional field value. -/
def jsOrEmptyArr (v : Option Json) : Json :=
  match v with
  | some x => if Json.jsTruthy x then x else Json.arr []
  | none => Json.arr []

/-- The spread `[...v]`: arrays yield their elements, strings are iterable
character by character, anything else throws a `TypeError`. -/
def spreadJs : Json → Except String (List Json)
  | Json.arr xs => Except.ok xs
  | Json.str s => Except.ok (s.data.map (fun c => Json.str (String.singleton c)))
  | _ => Except.error ("TypeError")

/-- `v?.length || 0`: the length of an array or string, the `length` field of
an object, `0` otherwise (a JavaScript number, hence a `DecNum` here). -/
def lengthOr0 (v : Option Json) : DecNum :=
  match v with
  | some (Json.arr xs) => xs.length
  | some (Json.str s) => s.length
  | some (Json.obj fields) =>
    match (fields.find? (fun p => p.1 == ("length"))).map (fun p => p.2) with
    | some (Json.num n) => if n.mant != 0 then n else 0
    | _ => 0
  | _ => 0

structure DiscoverOptions where
  query : String
  limit : Option Int := none
  sort : Option String := none
  submolt : Option String := none

structure DiscoverResult where
  posts : List Json
  agents : Json
  submolts : Json
  total_results : DecNum

/-- The search endpoint discover targets (src/index.ts line 194). -/
def searchPath (query : String) (limit : Int) : String :=
  ("/search?q=") ++ encodeURIComponent query ++ ("&limit=") ++ toString limit

/-- The community-scoped posts endpoint (src/index.ts line 206). -/
def submoltPostsPath (submolt sort : String) (limit : Int) : String :=
  ("/submolts/") ++ submolt ++ ("/posts?sort=") ++ sort ++ ("&limit=") ++ toString limit

/-- The result assembly of `discover_opportunities` (src/index.ts lines
213-219): merge the search posts with the scoped posts, pass agents and
submolts through, and count `total_results` from the search response only. -/
def discoverAssemble (data : Json) (submoltPostsJ : Json) :
    Except String DiscoverResult :=
  match spreadJs (jsOrEmptyArr (Json.jsField data ("posts"))) with
  | Except.error e => Except.error e
  | Except.ok ps1 =>
    match spreadJs submoltPostsJ with
    | Except.error e => Except.error e
    | Except.ok ps2 =>
      Except.ok
        { posts := ps1 ++ ps2
          agents := jsOrEmptyArr (Json.jsField data ("agents"))
          submolts := jsOrEmptyArr (Json.jsField data ("submolts"))
          total_results :=
            lengthOr0 (Json.jsField data ("posts")) +
            lengthOr0 (Json.jsField data ("agents")) +
            lengthOr0 (Json.jsField data ("submolts")) }

/-- The scoped second call of discover (src/index.ts lines 202-211): only made
when a truthy submolt filter is given; its posts are kept only when the call
succeeds with truthy data, and a missing `posts` field becomes `[]`. -/
def discoverSubmoltPosts (env : CredEnv) (t : Transport) (submolt sort : String)
    (limit : Int) : List Request × Except String Json :=
  if submolt ≠ ("") then
    match apiRequest env t ("GET") (submoltPostsPath submolt sort limit) none with
    | (r2, Except.error e) => (r2, Except.error e)
    | (r2, Except.ok sres) =>
      (r2, Except.ok
        (if sres.success && optTruthy sres.data then
          jsOrEmptyArr (Json.jsField (sres.data.getD Json.null) ("posts"))
        else Json.arr []))
  else ([], Except.ok (Json.arr []))

/-- `discover_opportunities` (src/index.ts lines 188-220). No validation is
performed on the options; the search call is issued unconditionally. -/
def discover_opportunities (env : CredEnv) (t : Transport) (o : DiscoverOptions) :
    List Request × Except String DiscoverResult :=
  match apiRequest env t ("GET") (searchPath o.query (o.limit.getD 25)) none with
  | (reqs1, Except.error e) => (reqs1, Except.error e)
  | (reqs1, Except.ok searchResult) =>
    if !searchResult.success || !optTruthy searchResult.data then
      (reqs1, Except.error (errMsg searchResult ("Failed to search")))
    else
      match o.submolt with
      | some s =>
        match discoverSubmoltPosts env t s (o.sort.getD ("hot")) (o.limit.getD 25) with
        | (reqs2, Except.error e) => (reqs1 ++ reqs2, Except.error e)
        | (reqs2, Except.ok smp) =>
          (reqs1 ++ reqs2,
            discoverAssemble (searchResult.data.getD Json.null) smp)
      | none =>
        (reqs1, discoverAssemble (searchResult.data.getD Json.null) (Json.arr []))

structure ContributeQFOptions where
  pool_id : String
  amount : DecNum

/-- The fallback result `contribute_qf` returns when the envelope has no
truthy `data` (src/index.ts lines 272-279). -/
def contributeDefault (o : ContributeQFOptions) : Json :=
  Json.obj
    [(("success"), Json.bool true), (("pool_id"), Json.str o.pool_id),
     (("amount_contributed"), Json.num o.amount), (("new_total"), Json.num o.amount),
     (("matching_multiplier"), Json.num 1),
     (("message"), Json.str ("Contribution successful"))]

/-- `contribute_qf` (src/index.ts lines 252-280): validate `pool_id` and the
amount locally, then POST `{amount}` to the pool's contribute endpoint. -/
def contribute_qf (env : CredEnv) (t : Transport) (o : ContributeQFOptions) :
    List Request × Except String Json :=
  if o.pool_id = ("") then ([], Except.error ("pool_id is required"))
  else if o.amount.mant = 0 ∨ o.amount ≤ 0 then
    ([], Except.error ("amount must be a positive number"))
  else
    match apiRequest env t ("POST") (("/qf/pools/") ++ o.pool_id ++ ("/contribute"))
        (some (Json.obj [(("amount"), Json.num o.amount)])) with
    | (reqs, Except.error e) => (reqs, Except.error e)
    | (reqs, Except.ok result) =>
      if !result.success then
        (reqs, Except.error (errMsg result ("Failed to contribute to QF pool")))
      else
        (reqs, Except.ok (match result.data with
          | some v => if Json.jsTruthy v then v else contributeDefault o
          | none => contributeDefault o))

/-- The fallback result of `join_pool` (src/index.ts lines 352-358). -/
def joinPoolDefault (pool_id : String) : Json :=
  Json.obj
    [(("success"), Json.bool true), (("pool_id"), Json.str pool_id),
     (("pool_name"), Json.str ("Unknown")), (("member_count"), Json.num 1),
     (("message"), Json.str ("Successfully joined pool"))]

/-- `join_pool` (src/index.ts lines 335-359): validate `pool_id`, then POST an
explicit empty-object body to the pool's join endpoint. -/
def join_pool (env : CredEnv) (t : Transport) (pool_id : String) :
    List Request × Except String Json :=
  if pool_id = ("") then ([], Except.error ("pool_id is required"))
  else
    match apiRequest env t ("POST") (("/pools/") ++ pool_id ++ ("/join"))
        (some (Json.obj [])) with
    | (reqs, Except.error e) => (reqs, Except.error e)
    | (reqs, Except.ok result) =>
      if !result.success then
        (reqs, Except.error (errMsg result ("Failed to join pool")))
      else
        (reqs, Except.ok (match result.data with
          | some v => if Json.jsTruthy v then v else joinPoolDefault pool_id
          | none => joinPoolDefault pool_id))

/-- `list_qf_pools` (src/index.ts lines 285-293): a bodiless GET. -/
def list_qf_pools (env : CredEnv) (t : Transport) :
    List Request × Except String Json :=
  match apiRequest env t ("GET") ("/qf/pools") none with
  | (reqs, Except.error e) => (reqs, Except.error e)
  | (reqs, Except.ok result) =>
    if !result.success then
      (reqs, Except.error (errMsg result ("Failed to list QF pools")))
    else
      (reqs, Except.ok (jsOrEmptyArr (Json.jsFieldOpt result.data ("pools"))))

structure PostUpdateOptions where
  submolt : String
  title : String
  content : Option String := none
  url : Option String := none

/-- Truthiness of an optional string argument (absent or empty is falsy). -/
def strOptTruthy : Option String → Bool
  | none => false
  | some s => s ≠ ("")

/-- The JSON body `post_update` builds (src/index.ts lines 445-451):
`submolt` and `title` always, `content` and `url` only when truthy. -/
def postUpdateBody (o : PostUpdateOptions) : Json :=
  Json.obj
    ([(("submolt"), Json.str o.submolt), (("title"), Json.str o.title)] ++
      (match o.content with
       | some c => if c ≠ ("") then [(("content"), Json.str c)] else []
       | none => []) ++
      (match o.url with
       | some u => if u ≠ ("") then [(("url"), Json.str u)] else []
       | none => []))

/-- `${result.data?.id}` in the fallback URL: `undefined` stringifies to the
literal text `undefined`. -/
def tmplOpt : Option Json → String
  | none => "undefined"
  | some v => Json.jsToString v

/-- `post_update` (src/index.ts lines 432-471): require `submolt`, `title`,
and at least one of `content`/`url`; POST the body; shape the result. -/
def post_update (env : CredEnv) (t : Transport) (o : PostUpdateOptions) :
    List Request × Except String Json :=
  if o.submolt = ("") then ([], Except.error ("submolt is required"))
  else if o.title = ("") then ([], Except.error ("title is required"))
  else if !strOptTruthy o.content && !strOptTruthy o.url then
    ([], Except.error ("Either content or url is required"))
  else
    match apiRequest env t ("POST") ("/posts") (some (postUpdateBody o)) with
    | (reqs, Except.error e) => (reqs, Except.error e)
    | (reqs, Except.ok result) =>
      if !result.success then
        (reqs, Except.error (errMsg result ("Failed to create post")))
      else
        (reqs, Except.ok (Json.obj
          [(("success"), Json.bool true),
           (("post_id"), jsOrEmptyStr (Json.jsFieldOpt result.data ("id"))),
           (("submolt"), Json.str o.submolt), (("title"), Json.str o.title),
           (("url"),
             match Json.jsFieldOpt result.data ("url") with
             | some v =>
               if Json.jsTruthy v then v
               else Json.str (postFallbackUrl o.submolt result.data)
             | none => Json.str (postFallbackUrl o.submolt result.data)),
           (("message"), Json.str ("Post created successfully"))]))
where
  /-- `result.data?.id || ''`. -/
  jsOrEmptyStr (v : Option Json) : Json :=
    match v with
    | some x => if Json.jsTruthy x then x else Json.str ""
    | none => Json.str ""
  /-- The template fallback URL of line 468. -/
  postFallbackUrl (submolt : String) (data : Option Json) : String :=
    ("https://www.moltbook.com/m/") ++ submolt ++ ("/posts/") ++
      tmplOpt (Json.jsFieldOpt data ("id"))

/-! ## The CLI script (`src/unnamed/part_000`) -/

/-- `BASE_URL` of the CLI script. -/
def BASE_URL : String := "https://www.moltbook.com/api/v1"

/-- One `curl` invocation of the CLI's `api_request`: method, full URL,
bearer token of the `Authorization` header, and the `-d` payload (absent when
the data argument is empty). -/
structure CurlRequest where
  method : String
  url : String
  bearer : String
  body : Option Json

/-- How a CLI command invocation ends before/at its network call. -/
inductive CliResult where
  | usage (msg : String) : CliResult
  | noAuth : CliResult
  | ok : CliResult
deriving DecidableEq

/-- The numeric value of a digit string. -/
def digitsVal (cs : List Char) : Nat :=
  cs.foldl (fun a c => a * 10 + (c.toNat - 48)) 0

/-- Scale a parsed mantissa/fraction-length pair by `10 ^ e` (the exponent
part of a number literal), in canonical form. -/
def jqApplyExp (mant : Int) (frac : Nat) (e : Int) : DecNum :=
  if 0 ≤ e then
    if e.toNat ≤ frac then DecNum.canon mant (frac - e.toNat)
    else DecNum.canon (mant * 10 ^ (e.toNat - frac)) 0
  else DecNum.canon mant (frac + (-e).toNat)

/-- The optional exponent tail of a number literal (`e`/`E`, optional sign,
one or more digits), applied to the mantissa parsed so far. -/
def jqParseExpPart (mant : Int) (frac : Nat) : List Char → Option DecNum
  | [] => some (DecNum.canon mant frac)
  | c :: rest =>
    if c = Char.ofNat 101 ∨ c = Char.ofNat 69 then
      match rest with
      | [] => none
      | d :: tail =>
        if d = Char.ofNat 45 then
          if tail ≠ [] ∧ tail.all (fun c => c.isDigit) then
            some (jqApplyExp mant frac (-(digitsVal tail : Int)))
          else none
        else if d = Char.ofNat 43 then
          if tail ≠ [] ∧ tail.all (fun c => c.isDigit) then
            some (jqApplyExp mant frac (digitsVal tail))
          else none
        else if (d :: tail).all (fun c => c.isDigit) then
          some (jqApplyExp mant frac (digitsVal (d :: tail)))
        else none
    else none

/-- The optional fraction tail (`.` plus one or more digits) of a number
literal, then the exponent tail. -/
def jqParseFracPart (sign : Int) (ip : Nat) : List Char → Option DecNum
  | [] => some (DecNum.canon (sign * ip) 0)
  | c :: rest =>
    if c = Char.ofNat 46 then
      let fd := rest.takeWhile (fun c => c.isDigit)
      if fd = [] then none
      else
        jqParseExpPart (sign * (ip * 10 ^ fd.length + digitsVal fd)) fd.length
          (rest.dropWhile (fun c => c.isDigit))
    else jqParseExpPart (sign * ip) 0 (c :: rest)

/-- `$amt | tonumber`: jq parses the string as a JSON number literal
(`-?(0|[1-9][0-9]*)(\.[0-9]+)?([eE][+-]?[0-9]+)?`), integer, fractional and
exponent forms alike, and fails on anything else. The value is the exact
decimal the literal denotes, canonicalized the way jq prints it (`2.50`
parses equal to `2.5`, `1e3` to `1000`). -/
def jqToNumber (s : String) : Option DecNum :=
  let cs0 := s.data
  let (sign, cs) : Int × List Char :=
    match cs0 with
    | c :: rest => if c = Char.ofNat 45 then (-1, rest) else (1, cs0)
    | [] => (1, [])
  let ip := cs.takeWhile (fun c => c.isDigit)
  if ip = [] then none
  else if 1 < ip.length ∧ ip.head? = some (Char.ofNat 48) then none
  else jqParseFracPart sign (digitsVal ip) (cs.dropWhile (fun c => c.isDigit))

/-- `cmd_qf_contribute` (CLI lines 163-173): only emptiness of the two
arguments is checked; the amount's sign is never examined. When `jq` fails on
a non-numeric amount, `local data=$(...)` masks the failure, `data` is empty,
and `api_request` still runs — with no `-d` payload. -/
def cmd_qf_contribute (apiKey : String) (pool_id amount : String) :
    List CurlRequest × CliResult :=
  if pool_id = ("") || amount = ("") then
    ([], CliResult.usage ("Usage: moltbook.sh qf_contribute <pool_id> <amount>"))
  else if apiKey = ("") then ([], CliResult.noAuth)
  else
    ([{ method := "POST"
        url := BASE_URL ++ ("/qf/pools/") ++ pool_id ++ ("/contribute")
        bearer := apiKey
        body := (jqToNumber amount).map (fun n => Json.obj [(("amount"), Json.num n)]) }],
      CliResult.ok)

/-- The URL `cmd_agent_info` requests (CLI line 380): the agent name is
interpolated into the query string with no percent-encoding. -/
def agentInfoUrl (agent_name : String) : String :=
  BASE_URL ++ ("/agents/profile?name=") ++ agent_name

/-- `cmd_agent_info` (CLI lines 373-381). -/
def cmd_agent_info (apiKey : String) (agent_name : String) :
    List CurlRequest × CliResult :=
  if agent_name = ("") then
    ([], CliResult.usage ("Usage: moltbook.sh agent_info <agent_name>"))
  else if apiKey = ("") then ([], CliResult.noAuth)
  else ([{ method := "GET", url := agentInfoUrl agent_name, bearer := apiKey,
           body := none }], CliResult.ok)

/-! ## The remaining CLI commands and the library verbs that do not validate -/

/-- The characters jq's `@uri` leaves unescaped: the RFC 3986 unreserved set
(ASCII alphanumerics and `- _ . ~`). -/
def isJqUriUnreserved (c : Char) : Bool :=
  c.isAlphanum || c = Char.ofNat 45 || c = Char.ofNat 95 || c = Char.ofNat 46 ||
    c = Char.ofNat 126

/-- jq's `@uri` filter: percent-encode the UTF-8 bytes of every character
outside the unreserved set. -/
def jqUri (s : String) : String :=
  String.mk (s.data.flatMap (fun c =>
    if isJqUriUnreserved c then [c] else percentEncodeChar c))

/-- `cmd_discover` (CLI lines 113-122). The encoded value is
`$(echo "$query" | jq -sRr @uri)`: `echo` appends a newline and `jq -sR`
slurps it, so the trailing newline is encoded too. -/
def cmd_discover (apiKey query : String) : List CurlRequest × CliResult :=
  if query = ("") then ([], CliResult.usage ("Usage: moltbook.sh discover <query>"))
  else if apiKey = ("") then ([], CliResult.noAuth)
  else
    ([⟨("GET"),
       BASE_URL ++ ("/search?q=") ++
         jqUri (query ++ String.singleton (Char.ofNat 10)) ++ ("&limit=25"),
       apiKey, none⟩], CliResult.ok)

/-- `cmd_search` (CLI lines 124-132), identical to discover up to the usage
line. -/
def cmd_search (apiKey query : String) : List CurlRequest × CliResult :=
  if query = ("") then ([], CliResult.usage ("Usage: moltbook.sh search <query>"))
  else if apiKey = ("") then ([], CliResult.noAuth)
  else
    ([⟨("GET"),
       BASE_URL ++ ("/search?q=") ++
         jqUri (query ++ String.singleton (Char.ofNat 10)) ++ ("&limit=25"),
       apiKey, none⟩], CliResult.ok)

/-- `cmd_feed` (CLI lines 134-145): no required arguments — the sort defaults
to `hot` and the submolt is optional — and the sort value is interpolated
into the query string with no percent-encoding. -/
def cmd_feed (apiKey sort submolt : String) : List CurlRequest × CliResult :=
  let s := if sort = ("") then ("hot") else sort
  if apiKey = ("") then ([], CliResult.noAuth)
  else
    ([⟨("GET"),
       BASE_URL ++
         (if submolt ≠ ("") then
           ("/submolts/") ++ submolt ++ ("/posts?sort=") ++ s ++ ("&limit=25")
         else ("/posts?sort=") ++ s ++ ("&limit=25")),
       apiKey, none⟩], CliResult.ok)

/-- `cmd_qf_info` (CLI lines 153-161). -/
def cmd_qf_info (apiKey pool_id : String) : List CurlRequest × CliResult :=
  if pool_id = ("") then ([], CliResult.usage ("Usage: moltbook.sh qf_info <pool_id>"))
  else if apiKey = ("") then ([], CliResult.noAuth)
  else ([⟨("GET"), BASE_URL ++ ("/qf/pools/") ++ pool_id, apiKey, none⟩],
    CliResult.ok)

/-- `cmd_pool_join` (CLI lines 175-183): an explicit `"{}"` body. -/
def cmd_pool_join (apiKey pool_id : String) : List CurlRequest × CliResult :=
  if pool_id = ("") then ([], CliResult.usage ("Usage: moltbook.sh pool_join <pool_id>"))
  else if apiKey = ("") then ([], CliResult.noAuth)
  else ([⟨("POST"), BASE_URL ++ ("/pools/") ++ pool_id ++ ("/join"), apiKey,
          some (Json.obj [])⟩], CliResult.ok)

/-- `cmd_pool_leave` (CLI lines 190-198). -/
def cmd_pool_leave (apiKey pool_id : String) : List CurlRequest × CliResult :=
  if pool_id = ("") then ([], CliResult.usage ("Usage: moltbook.sh pool_leave <pool_id>"))
  else if apiKey = ("") then ([], CliResult.noAuth)
  else ([⟨("DELETE"), BASE_URL ++ ("/pools/") ++ pool_id ++ ("/leave"), apiKey,
          none⟩], CliResult.ok)

/-- `cmd_post` (CLI lines 200-215): all three arguments required. -/
def cmd_post (apiKey submolt title content : String) :
    List CurlRequest × CliResult :=
  if submolt = ("") ∨ title = ("") ∨ content = ("") then
    ([], CliResult.usage ("Usage: moltbook.sh post <submolt> <title> <content>"))
  else if apiKey = ("") then ([], CliResult.noAuth)
  else
    ([⟨("POST"), BASE_URL ++ ("/posts"), apiKey,
       some (Json.obj [(("submolt"), Json.str submolt), (("title"), Json.str title),
         (("content"), Json.str content)])⟩], CliResult.ok)

/-- `cmd_post_link` (CLI lines 217-232). -/
def cmd_post_link (apiKey submolt title url : String) :
    List CurlRequest × CliResult :=
  if submolt = ("") ∨ title = ("") ∨ url = ("") then
    ([], CliResult.usage ("Usage: moltbook.sh post_link <submolt> <title> <url>"))
  else if apiKey = ("") then ([], CliResult.noAuth)
  else
    ([⟨("POST"), BASE_URL ++ ("/posts"), apiKey,
       some (Json.obj [(("submolt"), Json.str submolt), (("title"), Json.str title),
         (("url"), Json.str url)])⟩], CliResult.ok)

/-- `cmd_comment` (CLI lines 234-244). -/
def cmd_comment (apiKey post_id content : String) : List CurlRequest × CliResult :=
  if post_id = ("") ∨ content = ("") then
    ([], CliResult.usage ("Usage: moltbook.sh comment <post_id> <content>"))
  else if apiKey = ("") then ([], CliResult.noAuth)
  else
    ([⟨("POST"), BASE_URL ++ ("/posts/") ++ post_id ++ ("/comments"), apiKey,
       some (Json.obj [(("content"), Json.str content)])⟩], CliResult.ok)

/-- `cmd_reply` (CLI lines 246-260). -/
def cmd_reply (apiKey post_id parent_id content : String) :
    List CurlRequest × CliResult :=
  if post_id = ("") ∨ parent_id = ("") ∨ content = ("") then
    ([], CliResult.usage ("Usage: moltbook.sh reply <post_id> <parent_id> <content>"))
  else if apiKey = ("") then ([], CliResult.noAuth)
  else
    ([⟨("POST"), BASE_URL ++ ("/posts/") ++ post_id ++ ("/comments"), apiKey,
       some (Json.obj [(("content"), Json.str content),
         (("parent_id"), Json.str parent_id)])⟩], CliResult.ok)

/-- `cmd_upvote` (CLI lines 262-270). -/
def cmd_upvote (apiKey post_id : String) : List CurlRequest × CliResult :=
  if post_id = ("") then ([], CliResult.usage ("Usage: moltbook.sh upvote <post_id>"))
  else if apiKey = ("") then ([], CliResult.noAuth)
  else ([⟨("POST"), BASE_URL ++ ("/posts/") ++ post_id ++ ("/upvote"), apiKey,
          some (Json.obj [])⟩], CliResult.ok)

/-- `cmd_downvote` (CLI lines 272-280). -/
def cmd_downvote (apiKey post_id : String) : List CurlRequest × CliResult :=
  if post_id = ("") then ([], CliResult.usage ("Usage: moltbook.sh downvote <post_id>"))
  else if apiKey = ("") then ([], CliResult.noAuth)
  else ([⟨("POST"), BASE_URL ++ ("/posts/") ++ post_id ++ ("/downvote"), apiKey,
          some (Json.obj [])⟩], CliResult.ok)

/-- `cmd_submolt_info` (CLI lines 287-295). -/
def cmd_submolt_info (apiKey name : String) : List CurlRequest × CliResult :=
  if name = ("") then ([], CliResult.usage ("Usage: moltbook.sh submolt_info <name>"))
  else if apiKey = ("") then ([], CliResult.noAuth)
  else ([⟨("GET"), BASE_URL ++ ("/submolts/") ++ name, apiKey, none⟩],
    CliResult.ok)

/-- `cmd_submolt_create` (CLI lines 297-310). -/
def cmd_submolt_create (apiKey name description : String) :
    List CurlRequest × CliResult :=
  if name = ("") ∨ description = ("") then
    ([], CliResult.usage ("Usage: moltbook.sh submolt_create <name> <description>"))
  else if apiKey = ("") then ([], CliResult.noAuth)
  else
    ([⟨("POST"), BASE_URL ++ ("/submolts"), apiKey,
       some (Json.obj [(("name"), Json.str name),
         (("description"), Json.str description)])⟩], CliResult.ok)

/-- `cmd_subscribe` (CLI lines 312-320). -/
def cmd_subscribe (apiKey name : String) : List CurlRequest × CliResult :=
  if name = ("") then ([], CliResult.usage ("Usage: moltbook.sh subscribe <submolt_name>"))
  else if apiKey = ("") then ([], CliResult.noAuth)
  else ([⟨("POST"), BASE_URL ++ ("/submolts/") ++ name ++ ("/subscribe"), apiKey,
          some (Json.obj [])⟩], CliResult.ok)

/-- `cmd_unsubscribe` (CLI lines 322-330). -/
def cmd_unsubscribe (apiKey name : String) : List CurlRequest × CliResult :=
  if name = ("") then ([], CliResult.usage ("Usage: moltbook.sh unsubscribe <submolt_name>"))
  else if apiKey = ("") then ([], CliResult.noAuth)
  else ([⟨("DELETE"), BASE_URL ++ ("/submolts/") ++ name ++ ("/subscribe"), apiKey,
          none⟩], CliResult.ok)

/-- `cmd_profile_update` (CLI lines 342-351). -/
def cmd_profile_update (apiKey description : String) :
    List CurlRequest × CliResult :=
  if description = ("") then
    ([], CliResult.usage ("Usage: moltbook.sh profile_update <description>"))
  else if apiKey = ("") then ([], CliResult.noAuth)
  else
    ([⟨("PATCH"), BASE_URL ++ ("/agents/me"), apiKey,
       some (Json.obj [(("description"), Json.str description)])⟩], CliResult.ok)

/-- `cmd_follow` (CLI lines 353-361). -/
def cmd_follow (apiKey agent_name : String) : List CurlRequest × CliResult :=
  if agent_name = ("") then
    ([], CliResult.usage ("Usage: moltbook.sh follow <agent_name>"))
  else if apiKey = ("") then ([], CliResult.noAuth)
  else ([⟨("POST"), BASE_URL ++ ("/agents/") ++ agent_name ++ ("/follow"), apiKey,
          some (Json.obj [])⟩], CliResult.ok)

/-- `cmd_unfollow` (CLI lines 363-371). -/
def cmd_unfollow (apiKey agent_name : String) : List CurlRequest × CliResult :=
  if agent_name = ("") then
    ([], CliResult.usage ("Usage: moltbook.sh unfollow <agent_name>"))
  else if apiKey = ("") then ([], CliResult.noAuth)
  else ([⟨("DELETE"), BASE_URL ++ ("/agents/") ++ agent_name ++ ("/follow"),
          apiKey, none⟩], CliResult.ok)

/-- The fallback result of `leave_pool` (src/index.ts line 374). -/
def leavePoolDefault : Json :=
  Json.obj [(("success"), Json.bool true),
    (("message"), Json.str ("Left pool successfully"))]

/-- `leave_pool` (src/index.ts lines 364-375): no validation of `pool_id` —
the DELETE is issued whatever the argument. -/
def leave_pool (env : CredEnv) (t : Transport) (pool_id : String) :
    List Request × Except String Json :=
  match apiRequest env t ("DELETE") (("/pools/") ++ pool_id ++ ("/leave")) none with
  | (reqs, Except.error e) => (reqs, Except.error e)
  | (reqs, Except.ok result) =>
    if !result.success then
      (reqs, Except.error (errMsg result ("Failed to leave pool")))
    else
      (reqs, Except.ok (match result.data with
        | some v => if Json.jsTruthy v then v else leavePoolDefault
        | none => leavePoolDefault))

/-- `get_qf_pool` (src/index.ts lines 298-306): no validation of `pool_id`. -/
def get_qf_pool (env : CredEnv) (t : Transport) (pool_id : String) :
    List Request × Except String Json :=
  match apiRequest env t ("GET") (("/qf/pools/") ++ pool_id) none with
  | (reqs, Except.error e) => (reqs, Except.error e)
  | (reqs, Except.ok result) =>
    if !result.success || !optTruthy result.data then
      (reqs, Except.error (errMsg result ("Failed to get QF pool details")))
    else (reqs, Except.ok (result.data.getD Json.null))

/-- `add_comment` (src/index.ts lines 480-504): no validation of `post_id` or
`content`; `parent_id` is added to the body only when truthy. -/
def add_comment (env : CredEnv) (t : Transport) (post_id content : String)
    (parent_id : Option String) : List Request × Except String Json :=
  match apiRequest env t ("POST") (("/posts/") ++ post_id ++ ("/comments"))
      (some (Json.obj ([(("content"), Json.str content)] ++
        (match parent_id with
         | some p => if p ≠ ("") then [(("parent_id"), Json.str p)] else []
         | none => [])))) with
  | (reqs, Except.error e) => (reqs, Except.error e)
  | (reqs, Except.ok result) =>
    if !result.success then
      (reqs, Except.error (errMsg result ("Failed to add comment")))
    else
      (reqs, Except.ok (Json.obj [(("success"), Json.bool true),
        (("comment_id"),
          match Json.jsFieldOpt result.data ("id") with
          | some x => if Json.jsTruthy x then x else Json.str ""
          | none => Json.str "")]))

/-- `upvote_post` (src/index.ts lines 509-517): no validation of `post_id`. -/
def upvote_post (env : CredEnv) (t : Transport) (post_id : String) :
    List Request × Except String Json :=
  match apiRequest env t ("POST") (("/posts/") ++ post_id ++ ("/upvote"))
      (some (Json.obj [])) with
  | (reqs, Except.error e) => (reqs, Except.error e)
  | (reqs, Except.ok result) =>
    if !result.success then
      (reqs, Except.error (errMsg result ("Failed to upvote post")))
    else (reqs, Except.ok (Json.obj [(("success"), Json.bool true)]))

/-- `downvote_post` (src/index.ts lines 522-530): no validation of `post_id`. -/
def downvote_post (env : CredEnv) (t : Transport) (post_id : String) :
    List Request × Except String Json :=
  match apiRequest env t ("POST") (("/posts/") ++ post_id ++ ("/downvote"))
      (some (Json.obj [])) with
  | (reqs, Except.error e) => (reqs, Except.error e)
  | (reqs, Except.ok result) =>
    if !result.success then
      (reqs, Except.error (errMsg result ("Failed to downvote post")))
    else (reqs, Except.ok (Json.obj [(("success"), Json.bool true)]))

/-- `subscribe_submolt` (src/index.ts lines 535-543): no validation of the
submolt name. -/
def subscribe_submolt (env : CredEnv) (t : Transport) (submolt_name : String) :
    List Request × Except String Json :=
  match apiRequest env t ("POST") (("/submolts/") ++ submolt_name ++ ("/subscribe"))
      (some (Json.obj [])) with
  | (reqs, Except.error e) => (reqs, Except.error e)
  | (reqs, Except.ok result) =>
    if !result.success then
      (reqs, Except.error (errMsg result ("Failed to subscribe to submolt")))
    else (reqs, Except.ok (Json.obj [(("success"), Json.bool true)]))

/-! ## Redirect policy -/

/-- The CLI's `api_request` passes `--location-trusted` to `curl`
(CLI lines 37-54). -/
def api_request_location_trusted : Bool := true

/-- curl's documented redirect policy for custom `Authorization` headers:
with `-L` alone the header is dropped when a redirect leaves the original
host; `--location-trusted` opts out of that protection and resends the header
to every redirect target, same-origin or not. -/
def curlSendsAuthTo (originalHost redirectHost : String) (locTrusted : Bool) : Bool :=
  (redirectHost == originalHost) || locTrusted

/-- The library client issues requests with Node's `https.request`, which
performs no redirect handling at all, and `apiRequest` (src/index.ts lines
111-149) adds none: a 3xx answer is simply normalized like any other non-2xx
status. -/
def httpsFollowRedirects : Bool := false

/-! ## Spec-side comparators for the normalization claim -/

/-- The `error` chain as the spec words it: the parsed body's `error` field if
truthy, else its `message` field if truthy, else the generic fallback. Total:
no notion of a property access throwing. -/
def specErrChain (parsed : Json) : Json :=
  match Json.jsField parsed ("error") with
  | some v => if Json.jsTruthy v then v else specMsg parsed
  | none => specMsg parsed
where
  /-- `message` field if truthy, else the generic fallback. -/
  specMsg (parsed : Json) : Json :=
    match Json.jsField parsed ("message") with
    | some v => if Json.jsTruthy v then v else Json.str ("Request failed")
    | none => Json.str ("Request failed")

/-- The normalization exactly as the claim states it: parse failure yields the
parse-failure envelope, 2xx yields success with the parsed body, any other
status yields failure with the `error`/`message`/fallback chain. -/
def normalizeSpecC1 (statusCode : Option Nat) (parseResult : Option Json) :
    ApiResponse :=
  match parseResult with
  | none => parseFailEnvelope
  | some parsed =>
    if statusOk statusCode then { success := true, data := some parsed, error := none }
    else { success := false, data := none, error := some (specErrChain parsed) }

/-- The claim as amended: identical to `normalizeSpecC1` except that a non-2xx
response whose body parses to JSON `null` also yields the parse-failure
envelope (property access on `null` throws a `TypeError` that the same `catch`
swallows). -/
def normalizeAmendedC1 (statusCode : Option Nat) (parseResult : Option Json) :
    ApiResponse :=
  match parseResult with
  | none => parseFailEnvelope
  | some parsed =>
    if statusOk statusCode then { success := true, data := some parsed, error := none }
    else
      match parsed with
      | Json.null => parseFailEnvelope
      | _ => { success := false, data := none, error := some (specErrChain parsed) }

/-- The field list of an object (empty for any other value). -/
def objFields : Json → List (String × Json)
  | Json.obj fs => fs
  | _ => []

/-! # Theorems -/

theorem errValue_eq_specErrChain (parsed : Json) (h : parsed ≠ Json.null) :
    errValue parsed = Except.ok (specErrChain parsed) := by
  have he := Json.jsGet_of_ne_null parsed ("error") h
  have hm := Json.jsGet_of_ne_null parsed ("message") h
  unfold errValue errValue.errValueMessage specErrChain specErrChain.specMsg
  rw [he, hm]
  cases Json.jsField parsed ("error") <;> cases Json.jsField parsed ("message") <;>
    simp [apply_ite Except.ok]

/-- C1: the dispatcher's normalization, as amended — for every status and
parse outcome, `handleEnd` returns the parse-failure envelope on an
unparseable body (and on a non-2xx response whose body is JSON `null`), a
success envelope with the parsed body on a 2xx status, and otherwise a
failure envelope carrying the body's `error` field if truthy, else its
`message` field if truthy, else the generic fallback message. -/
theorem C1_response_normalization (sc : Option Nat) (pr : Option Json) :
    handleEnd sc pr = normalizeAmendedC1 sc pr := by
  cases pr with
  | none => rfl
  | some parsed =>
    unfold handleEnd normalizeAmendedC1
    by_cases hok : statusOk sc = true
    · simp [hok]
    · simp only [Bool.not_eq_true] at hok
      simp only [hok, Bool.false_eq_true, if_false]
      cases parsed with
      | null => rfl
      | bool b => rw [errValue_eq_specErrChain _ (by simp)]
      | num n => rw [errValue_eq_specErrChain _ (by simp)]
      | str s => rw [errValue_eq_specErrChain _ (by simp)]
      | arr xs => rw [errValue_eq_specErrChain _ (by simp)]
      | obj fs => rw [errValue_eq_specErrChain _ (by simp)]

/-- C1, counterexample to the claim as stated: a 404 whose body parses to JSON
`null` does not produce the `error`/`message`/fallback chain the claim
describes — the dispatcher answers with the parse-failure envelope instead,
because `parsed.error` throws on a `null` body and the `catch` swallows it. -/
theorem C1_counterexample :
    handleEnd (some 404) (some Json.null) ≠
      normalizeSpecC1 (some 404) (some Json.null) := by
  intro h
  have h2 := congrArg (fun r => r.error) h
  simp [handleEnd, normalizeSpecC1, parseFailEnvelope, errValue, Json.jsGet,
    specErrChain, specErrChain.specMsg, Json.jsField, statusOk] at h2

/-- C2: the CLI's `api_request` invokes curl with `--location-trusted`, which
resends the `Authorization` bearer header to a cross-origin redirect target
(here `evil.example`) — exactly what the claim forbids — whereas without that
flag curl would drop the header; and the library client does not follow
redirects at all. The dispatcher also never issues more than one request per
call, so no same-origin second hop exists in the library either. -/
theorem apiRequest_trace (env : CredEnv) (t : Transport) (m e : String)
    (d : Option Json) (key : Json) (hkey : getApiKey env = Except.ok key) :
    apiRequest env t m e d =
      ([mkRequest key m e d],
        Except.ok (handleEnd (t (mkRequest key m e d)).statusCode
          (t (mkRequest key m e d)).parseResult)) := by
  simp [apiRequest, hkey]

theorem getApiKeyFromFile_of_fileKey_none (env : CredEnv)
    (h : fileKey env.configFile = none) :
    getApiKeyFromFile env = Except.error (noCredMsg env) := by
  unfold getApiKeyFromFile
  cases hf : env.configFile with
  | absent => rfl
  | unparseable => rfl
  | parsed config =>
    rw [hf] at h
    unfold fileKey at h
    simp only [] at h ⊢
    cases hg : Json.jsGet config ("api_key") with
    | error e => simp [hg]
    | ok o =>
      cases o with
      | none => simp [hg]
      | some v =>
        simp only [hg] at h ⊢
        split at h
        · exact absurd h (by simp)
        · simp_all

/-- C4: with the environment variable set and non-empty, both credential
resolvers return the environment value and ignore the file entirely — the
conclusion holds for every file state, including a present and valid one. -/
theorem C4_env_precedence (env : CredEnv) (k : String)
    (hset : env.moltbook_api_key = some k) (hne : k ≠ ("")) :
    getApiKey env = Except.ok (Json.str k) ∧
    get_api_key_sh (some k) env.configFile = k := by
  refine ⟨?_, ?_⟩
  · simp [getApiKey, hset, hne]
  · simp [get_api_key_sh, hne]

/-- C4 witness: the environment key wins over a present, valid credentials
file holding a different key. -/
theorem C4_env_precedence_witness :
    getApiKey
      ⟨some ("/home/u"), some ("envkey"),
        FileState.parsed (Json.obj [(("api_key"), Json.str ("filekey"))])⟩ =
      Except.ok (Json.str ("envkey")) ∧
    get_api_key_sh (some ("envkey"))
      (FileState.parsed (Json.obj [(("api_key"), Json.str ("filekey"))])) =
      ("envkey") :=
  C4_env_precedence
    ⟨some ("/home/u"), some ("envkey"),
      FileState.parsed (Json.obj [(("api_key"), Json.str ("filekey"))])⟩
    ("envkey") rfl (by decide)

/-- C5: when the environment variable is unset or empty and the file yields no
truthy `api_key` (absent file, unparseable file — treated as field-absent, not
a crash —, or a parsed document without a truthy field), resolution fails with
the `No API key found` error, whose message names both remediation paths
(the `MOLTBOOK_API_KEY` variable and the config-file path), and the dispatcher
then fails without putting any request on the wire. -/
theorem C5_no_credential (env : CredEnv)
    (h1 : env.moltbook_api_key = none ∨ env.moltbook_api_key = some (""))
    (h2 : fileKey env.configFile = none) :
    getApiKey env = Except.error (noCredMsg env) ∧
    (∃ a b c, noCredMsg env =
      ((a ++ ("MOLTBOOK_API_KEY")) ++ b) ++ CONFIG_FILE env ++ c) ∧
    ∀ (t : Transport) (m e : String) (d : Option Json),
      apiRequest env t m e d = ([], Except.error (noCredMsg env)) := by
  have hget : getApiKey env = Except.error (noCredMsg env) := by
    unfold getApiKey
    rcases h1 with h1 | h1 <;> rw [h1] <;>
      simp [getApiKeyFromFile_of_fileKey_none env h2]
  refine ⟨hget, ?_, ?_⟩
  · exact ⟨("No API key found. Set "), (" environment variable or create "),
      (" with \x7b\"api_key\": \"your_key_here\"\x7d"), rfl⟩
  · intro t m e d
    simp [apiRequest, hget]

/-- C5 witness: a concrete state with no environment variable and a file that
exists but fails to parse; resolution fails with the remediation message and a
dispatch attempt issues nothing. -/
theorem C5_no_credential_witness :
    getApiKey ⟨some ("/home/u"), none, FileState.unparseable⟩ =
      Except.error (noCredMsg ⟨some ("/home/u"), none, FileState.unparseable⟩) ∧
    apiRequest ⟨some ("/home/u"), none, FileState.unparseable⟩
      (fun _ => ⟨some 200, none⟩) ("GET") ("/posts") none =
      ([], Except.error (noCredMsg ⟨some ("/home/u"), none, FileState.unparseable⟩)) :=
  ⟨(C5_no_credential ⟨some ("/home/u"), none, FileState.unparseable⟩
      (Or.inl rfl) rfl).1,
   (C5_no_credential ⟨some ("/home/u"), none, FileState.unparseable⟩
      (Or.inl rfl) rfl).2.2 _ ("GET") ("/posts") none⟩

theorem C2_redirect_policy :
    curlSendsAuthTo ("www.moltbook.com") ("evil.example")
      api_request_location_trusted = true ∧
    curlSendsAuthTo ("www.moltbook.com") ("evil.example") false = false ∧
    httpsFollowRedirects = false ∧
    ∀ (env : CredEnv) (t : Transport) (m e : String) (d : Option Json),
      (apiRequest env t m e d).1.length ≤ 1 := by
  refine ⟨rfl, rfl, rfl, ?_⟩
  intro env t m e d
  cases h : getApiKey env <;> simp [apiRequest, h]

/-- C3 (amended): validation before network is exactly this split. In the
CLI, every command with required arguments fails with its usage message and
zero transport invocations when any required argument is empty. In the
library, `contribute_qf`, `join_pool` and `post_update` likewise fail with a
validation error and an empty request trace on an empty required argument,
before credential resolution; but the remaining library verbs with required
arguments — `discover_opportunities`, `leave_pool`, `get_qf_pool`,
`add_comment`, `upvote_post`, `downvote_post` and `subscribe_submolt` —
perform no validation and issue their request even when a required argument
is empty. -/
theorem C3_required_argument_validation (env : CredEnv) (t : Transport) :
    (∀ k q, q = ("") → cmd_discover k q =
      ([], CliResult.usage ("Usage: moltbook.sh discover <query>"))) ∧
    (∀ k q, q = ("") → cmd_search k q =
      ([], CliResult.usage ("Usage: moltbook.sh search <query>"))) ∧
    (∀ k p, p = ("") → cmd_qf_info k p =
      ([], CliResult.usage ("Usage: moltbook.sh qf_info <pool_id>"))) ∧
    (∀ k p a, p = ("") ∨ a = ("") → cmd_qf_contribute k p a =
      ([], CliResult.usage ("Usage: moltbook.sh qf_contribute <pool_id> <amount>"))) ∧
    (∀ k p, p = ("") → cmd_pool_join k p =
      ([], CliResult.usage ("Usage: moltbook.sh pool_join <pool_id>"))) ∧
    (∀ k p, p = ("") → cmd_pool_leave k p =
      ([], CliResult.usage ("Usage: moltbook.sh pool_leave <pool_id>"))) ∧
    (∀ k a b c, a = ("") ∨ b = ("") ∨ c = ("") → cmd_post k a b c =
      ([], CliResult.usage ("Usage: moltbook.sh post <submolt> <title> <content>"))) ∧
    (∀ k a b c, a = ("") ∨ b = ("") ∨ c = ("") → cmd_post_link k a b c =
      ([], CliResult.usage ("Usage: moltbook.sh post_link <submolt> <title> <url>"))) ∧
    (∀ k p c, p = ("") ∨ c = ("") → cmd_comment k p c =
      ([], CliResult.usage ("Usage: moltbook.sh comment <post_id> <content>"))) ∧
    (∀ k p q c, p = ("") ∨ q = ("") ∨ c = ("") → cmd_reply k p q c =
      ([], CliResult.usage ("Usage: moltbook.sh reply <post_id> <parent_id> <content>"))) ∧
    (∀ k p, p = ("") → cmd_upvote k p =
      ([], CliResult.usage ("Usage: moltbook.sh upvote <post_id>"))) ∧
    (∀ k p, p = ("") → cmd_downvote k p =
      ([], CliResult.usage ("Usage: moltbook.sh downvote <post_id>"))) ∧
    (∀ k n, n = ("") → cmd_submolt_info k n =
      ([], CliResult.usage ("Usage: moltbook.sh submolt_info <name>"))) ∧
    (∀ k n d, n = ("") ∨ d = ("") → cmd_submolt_create k n d =
      ([], CliResult.usage ("Usage: moltbook.sh submolt_create <name> <description>"))) ∧
    (∀ k n, n = ("") → cmd_subscribe k n =
      ([], CliResult.usage ("Usage: moltbook.sh subscribe <submolt_name>"))) ∧
    (∀ k n, n = ("") → cmd_unsubscribe k n =
      ([], CliResult.usage ("Usage: moltbook.sh unsubscribe <submolt_name>"))) ∧
    (∀ k d, d = ("") → cmd_profile_update k d =
      ([], CliResult.usage ("Usage: moltbook.sh profile_update <description>"))) ∧
    (∀ k n, n = ("") → cmd_follow k n =
      ([], CliResult.usage ("Usage: moltbook.sh follow <agent_name>"))) ∧
    (∀ k n, n = ("") → cmd_unfollow k n =
      ([], CliResult.usage ("Usage: moltbook.sh unfollow <agent_name>"))) ∧
    (∀ k n, n = ("") → cmd_agent_info k n =
      ([], CliResult.usage ("Usage: moltbook.sh agent_info <agent_name>"))) ∧
    (∀ a : DecNum, contribute_qf env t ⟨(""), a⟩ =
      ([], Except.error ("pool_id is required"))) ∧
    join_pool env t ("") = ([], Except.error ("pool_id is required")) ∧
    (∀ o : PostUpdateOptions, o.submolt = ("") →
      post_update env t o = ([], Except.error ("submolt is required"))) ∧
    (∀ o : PostUpdateOptions, o.submolt ≠ ("") → o.title = ("") →
      post_update env t o = ([], Except.error ("title is required"))) ∧
    (∀ key, getApiKey env = Except.ok key →
      (discover_opportunities env t ⟨(""), none, none, none⟩).1 =
        [mkRequest key ("GET") (searchPath ("") 25) none] ∧
      (leave_pool env t ("")).1 =
        [mkRequest key ("DELETE") ("/pools//leave") none] ∧
      (get_qf_pool env t ("")).1 =
        [mkRequest key ("GET") ("/qf/pools/") none] ∧
      (add_comment env t ("") ("") none).1 =
        [mkRequest key ("POST") ("/posts//comments")
          (some (Json.obj [(("content"), Json.str (""))]))] ∧
      (upvote_post env t ("")).1 =
        [mkRequest key ("POST") ("/posts//upvote") (some (Json.obj []))] ∧
      (downvote_post env t ("")).1 =
        [mkRequest key ("POST") ("/posts//downvote") (some (Json.obj []))] ∧
      (subscribe_submolt env t ("")).1 =
        [mkRequest key ("POST") ("/submolts//subscribe") (some (Json.obj []))]) := by
  refine ⟨?_, ?_, ?_, ?_, ?_, ?_, ?_, ?_, ?_, ?_, ?_, ?_, ?_, ?_, ?_, ?_, ?_,
    ?_, ?_, ?_, ?_, ?_, ?_, ?_, ?_⟩
  · intro k q h; simp [cmd_discover, h]
  · intro k q h; simp [cmd_search, h]
  · intro k p h; simp [cmd_qf_info, h]
  · intro k p a h; rcases h with h | h <;> simp [cmd_qf_contribute, h]
  · intro k p h; simp [cmd_pool_join, h]
  · intro k p h; simp [cmd_pool_leave, h]
  · intro k a b c h; unfold cmd_post; rw [if_pos h]
  · intro k a b c h; unfold cmd_post_link; rw [if_pos h]
  · intro k p c h; unfold cmd_comment; rw [if_pos h]
  · intro k p q c h; unfold cmd_reply; rw [if_pos h]
  · intro k p h; simp [cmd_upvote, h]
  · intro k p h; simp [cmd_downvote, h]
  · intro k n h; simp [cmd_submolt_info, h]
  · intro k n d h; unfold cmd_submolt_create; rw [if_pos h]
  · intro k n h; simp [cmd_subscribe, h]
  · intro k n h; simp [cmd_unsubscribe, h]
  · intro k d h; simp [cmd_profile_update, h]
  · intro k n h; simp [cmd_follow, h]
  · intro k n h; simp [cmd_unfollow, h]
  · intro k n h; simp [cmd_agent_info, h]
  · intro a; simp [contribute_qf]
  · simp [join_pool]
  · intro o h; simp [post_update, h]
  · intro o h1 h2; simp [post_update, h1, h2]
  · intro key hkey
    refine ⟨?_, ?_, ?_, ?_, ?_, ?_, ?_⟩
    · unfold discover_opportunities
      dsimp only
      simp only [Option.getD_none]
      rw [apiRequest_trace env t ("GET") (searchPath ("") 25) none key hkey]
      dsimp only
      split <;> rfl
    · unfold leave_pool
      rw [apiRequest_trace env t ("DELETE") (("/pools/") ++ ("") ++ ("/leave"))
        none key hkey]
      dsimp only
      split <;> rfl
    · unfold get_qf_pool
      rw [apiRequest_trace env t ("GET") (("/qf/pools/") ++ ("")) none key hkey]
      dsimp only
      split <;> rfl
    · unfold add_comment
      rw [apiRequest_trace env t ("POST") (("/posts/") ++ ("") ++ ("/comments"))
        (some (Json.obj ([(("content"), Json.str (""))] ++ []))) key hkey]
      dsimp only
      split <;> rfl
    · unfold upvote_post
      rw [apiRequest_trace env t ("POST") (("/posts/") ++ ("") ++ ("/upvote"))
        (some (Json.obj [])) key hkey]
      dsimp only
      split <;> rfl
    · unfold downvote_post
      rw [apiRequest_trace env t ("POST") (("/posts/") ++ ("") ++ ("/downvote"))
        (some (Json.obj [])) key hkey]
      dsimp only
      split <;> rfl
    · unfold subscribe_submolt
      rw [apiRequest_trace env t ("POST")
        (("/submolts/") ++ ("") ++ ("/subscribe")) (some (Json.obj [])) key hkey]
      dsimp only
      split <;> rfl

/-- C3 witness: concrete invocations — a CLI command with an empty required
argument exits with its usage line and no request, the validating library
verbs fail locally, and a non-validating one (`leave_pool` with an empty pool
id) puts a request on the wire. -/
theorem C3_required_argument_validation_witness :
    cmd_post ("k") ("general") ("") ("hello") =
      ([], CliResult.usage ("Usage: moltbook.sh post <submolt> <title> <content>")) ∧
    contribute_qf ⟨some (""), some ("k"), FileState.absent⟩
      (fun _ => ⟨some 200, none⟩) ⟨(""), 5⟩ =
      ([], Except.error ("pool_id is required")) ∧
    post_update ⟨some (""), some ("k"), FileState.absent⟩
      (fun _ => ⟨some 200, none⟩) ⟨("general"), (""), none, none⟩ =
      ([], Except.error ("title is required")) ∧
    (leave_pool ⟨some (""), some ("k"), FileState.absent⟩
      (fun _ => ⟨some 200, none⟩) ("")).1 =
      [mkRequest (Json.str ("k")) ("DELETE") ("/pools//leave") none] :=
  ⟨(C3_required_argument_validation ⟨some (""), some ("k"), FileState.absent⟩
      (fun _ => ⟨some 200, none⟩)).2.2.2.2.2.2.1 ("k") ("general") ("") ("hello")
      (Or.inr (Or.inl rfl)),
   (C3_required_argument_validation ⟨some (""), some ("k"), FileState.absent⟩
      (fun _ => ⟨some 200, none⟩)).2.2.2.2.2.2.2.2.2.2.2.2.2.2.2.2.2.2.2.2.1 5,
   (C3_required_argument_validation ⟨some (""), some ("k"), FileState.absent⟩
      (fun _ => ⟨some 200, none⟩)).2.2.2.2.2.2.2.2.2.2.2.2.2.2.2.2.2.2.2.2.2.2.2.1
      ⟨("general"), (""), none, none⟩ (by decide) rfl,
   ((C3_required_argument_validation ⟨some (""), some ("k"), FileState.absent⟩
      (fun _ => ⟨some 200, none⟩)).2.2.2.2.2.2.2.2.2.2.2.2.2.2.2.2.2.2.2.2.2.2.2.2
      (Json.str ("k")) rfl).2.1⟩

/-- C3 counterexample to the claim as stated: `discover_opportunities` has a
required `query` argument, yet invoking it with `query` empty issues the
search request anyway (one transport invocation, `q=` empty in the URL) and
succeeds — no validation error, not zero transport invocations. -/
theorem C3_counterexample :
    discover_opportunities ⟨some (""), some ("k"), FileState.absent⟩
      (fun _ => ⟨some 200, some (Json.obj
        [(("posts"), Json.arr []), (("agents"), Json.arr []),
         (("submolts"), Json.arr [])])⟩)
      ⟨(""), none, none, none⟩ =
      ([⟨("GET"), ("www.moltbook.com"), ("/api/v1/search?q=&limit=25"),
         ("Bearer k"), ("application/json"), ("OpenClaw-Moltbook-Skill/1.0.0"),
         none⟩],
       Except.ok ⟨[], Json.arr [], Json.arr [], 0⟩) := by rfl

theorem postUpdateBody_values (o : PostUpdateOptions) :
    ∀ p ∈ objFields (postUpdateBody o), ∃ s, p.2 = Json.str s := by
  intro p hp
  unfold postUpdateBody objFields at hp
  rcases hoc : o.content with _ | c <;> rcases hou : o.url with _ | u <;>
    rw [hoc, hou] at hp <;> dsimp only at hp
  · simp at hp
    rcases hp with rfl | rfl <;> exact ⟨_, rfl⟩
  · split at hp <;> simp at hp <;>
      [rcases hp with rfl | rfl | rfl; rcases hp with rfl | rfl] <;> exact ⟨_, rfl⟩
  · split at hp <;> simp at hp <;>
      [rcases hp with rfl | rfl | rfl; rcases hp with rfl | rfl] <;> exact ⟨_, rfl⟩
  · split at hp <;> split at hp <;> simp at hp
    · rcases hp with rfl | rfl | rfl | rfl <;> exact ⟨_, rfl⟩
    · rcases hp with rfl | rfl | rfl <;> exact ⟨_, rfl⟩
    · rcases hp with rfl | rfl | rfl <;> exact ⟨_, rfl⟩
    · rcases hp with rfl | rfl <;> exact ⟨_, rfl⟩

/-- C6: `post_update` validates the content/url pair as a disjunction. With
`submolt` and `title` non-empty: if neither `content` nor `url` is supplied
(truthy), validation fails before any request is issued; if at least one is
supplied, exactly one request is issued whose body is `postUpdateBody o`; and
that body holds exactly the supplied fields — only `content`, only `url`, or
both — with every field a string, so no `null` placeholder ever appears. -/
theorem C6_content_url_disjunction (env : CredEnv) (t : Transport)
    (o : PostUpdateOptions) (hs : o.submolt ≠ ("")) (ht : o.title ≠ ("")) :
    (strOptTruthy o.content = false → strOptTruthy o.url = false →
      post_update env t o = ([], Except.error ("Either content or url is required"))) ∧
    (∀ key, getApiKey env = Except.ok key →
      (strOptTruthy o.content || strOptTruthy o.url) = true →
      (post_update env t o).1 =
        [mkRequest key ("POST") ("/posts") (some (postUpdateBody o))]) ∧
    (∀ c, o.content = some c → c ≠ ("") → strOptTruthy o.url = false →
      postUpdateBody o = Json.obj [(("submolt"), Json.str o.submolt),
        (("title"), Json.str o.title), (("content"), Json.str c)]) ∧
    (∀ u, o.url = some u → u ≠ ("") → strOptTruthy o.content = false →
      postUpdateBody o = Json.obj [(("submolt"), Json.str o.submolt),
        (("title"), Json.str o.title), (("url"), Json.str u)]) ∧
    (∀ c u, o.content = some c → c ≠ ("") → o.url = some u → u ≠ ("") →
      postUpdateBody o = Json.obj [(("submolt"), Json.str o.submolt),
        (("title"), Json.str o.title), (("content"), Json.str c),
        (("url"), Json.str u)]) ∧
    (∀ name v, (name, v) ∈ objFields (postUpdateBody o) → v ≠ Json.null) := by
  refine ⟨?_, ?_, ?_, ?_, ?_, ?_⟩
  · intro h1 h2
    simp [post_update, hs, ht, h1, h2]
  · intro key hkey hor
    have hcond : (!strOptTruthy o.content && !strOptTruthy o.url) = false := by
      cases hc : strOptTruthy o.content <;> cases hu : strOptTruthy o.url <;>
        simp_all
    have happ := apiRequest_trace env t ("POST") ("/posts")
      (some (postUpdateBody o)) key hkey
    unfold post_update
    rw [if_neg hs, if_neg ht, if_neg (by rw [hcond]; simp), happ]
    dsimp only
    split <;> rfl
  · intro c hc hcne hu
    rcases hou : o.url with _ | u
    · simp [postUpdateBody, hc, hcne, hou]
    · rw [hou] at hu
      simp only [strOptTruthy] at hu
      have hu2 : u = ("") := by simpa using hu
      simp [postUpdateBody, hc, hcne, hou, hu2]
  · intro u hu hune hc
    rcases hoc : o.content with _ | c
    · simp [postUpdateBody, hu, hune, hoc]
    · rw [hoc] at hc
      simp only [strOptTruthy] at hc
      have hc2 : c = ("") := by simpa using hc
      simp [postUpdateBody, hu, hune, hoc, hc2]
  · intro c u hc hcne hu hune
    simp [postUpdateBody, hc, hcne, hu, hune]
  · intro name v hv
    obtain ⟨s2, hsv⟩ := postUpdateBody_values o (name, v) hv
    simp only at hsv
    rw [hsv]
    simp

/-- C6 witness: with neither `content` nor `url`, validation fails with no
request; with only `content`, the outgoing body holds `submolt`, `title` and
`content` and omits `url` entirely. -/
theorem C6_content_url_disjunction_witness :
    post_update ⟨some (""), some ("k"), FileState.absent⟩
      (fun _ => ⟨some 200, none⟩) ⟨("general"), ("Hi"), none, none⟩ =
      ([], Except.error ("Either content or url is required")) ∧
    postUpdateBody ⟨("general"), ("Hi"), some ("txt"), none⟩ =
      Json.obj [(("submolt"), Json.str ("general")), (("title"), Json.str ("Hi")),
        (("content"), Json.str ("txt"))] :=
  ⟨(C6_content_url_disjunction ⟨some (""), some ("k"), FileState.absent⟩
      (fun _ => ⟨some 200, none⟩) ⟨("general"), ("Hi"), none, none⟩
      (by decide) (by decide)).1 rfl rfl,
   (C6_content_url_disjunction ⟨some (""), some ("k"), FileState.absent⟩
      (fun _ => ⟨some 200, none⟩) ⟨("general"), ("Hi"), some ("txt"), none⟩
      (by decide) (by decide)).2.2.1 ("txt") rfl (by decide) rfl⟩

theorem DecNum.le_iff (a b : DecNum) :
    a ≤ b ↔ a.mant * 10 ^ b.exp ≤ b.mant * 10 ^ a.exp := Iff.rfl

theorem DecNum.lt_iff (a b : DecNum) :
    a < b ↔ a.mant * 10 ^ b.exp < b.mant * 10 ^ a.exp := Iff.rfl

theorem DecNum.zero_mant : (0 : DecNum).mant = 0 := rfl

theorem DecNum.zero_exp : (0 : DecNum).exp = 0 := rfl

theorem DecNum.add_def (a b : DecNum) :
    a + b = DecNum.canon (a.mant * 10 ^ b.exp + b.mant * 10 ^ a.exp)
      (a.exp + b.exp) := rfl

theorem DecNum.neg_def (a : DecNum) : -a = ⟨-a.mant, a.exp⟩ := rfl

theorem DecNum.sub_def (a b : DecNum) : a - b = a + (-b) := rfl

theorem DecNum.natCast_mant (n : Nat) : (n : DecNum).mant = n := rfl

theorem DecNum.natCast_exp (n : Nat) : (n : DecNum).exp = 0 := rfl

theorem DecNum.canon_exp_zero (m : Int) : DecNum.canon m 0 = ⟨m, 0⟩ := rfl

/-- C7 (amended): the library's `contribute_qf` does validate the amount
locally — a non-positive amount fails with `amount must be a positive number`
and an empty request trace, and a positive amount is sent as `{"amount": n}`
in the body of the single issued request. The CLI's `cmd_qf_contribute`,
however, never checks the sign: any amount jq's `tonumber` parses — integer,
fractional or exponent form, zero or negative included — is sent as
`{"amount": n}`, and an amount `tonumber` rejects makes `jq` fail silently,
after which the request is still issued with no body at all. -/
theorem C7_amount_validation (env : CredEnv) (t : Transport) :
    (∀ pid (a : DecNum), pid ≠ ("") → a ≤ 0 →
      contribute_qf env t ⟨pid, a⟩ =
        ([], Except.error ("amount must be a positive number"))) ∧
    (∀ pid (a : DecNum) key, pid ≠ ("") → 0 < a → getApiKey env = Except.ok key →
      (contribute_qf env t ⟨pid, a⟩).1 =
        [mkRequest key ("POST") (("/qf/pools/") ++ pid ++ ("/contribute"))
          (some (Json.obj [(("amount"), Json.num a)]))]) ∧
    (∀ k pid amt n, k ≠ ("") → pid ≠ ("") → amt ≠ ("") → jqToNumber amt = some n →
      cmd_qf_contribute k pid amt =
        ([⟨("POST"), BASE_URL ++ ("/qf/pools/") ++ pid ++ ("/contribute"), k,
           some (Json.obj [(("amount"), Json.num n)])⟩], CliResult.ok)) ∧
    (∀ k pid amt, k ≠ ("") → pid ≠ ("") → amt ≠ ("") → jqToNumber amt = none →
      cmd_qf_contribute k pid amt =
        ([⟨("POST"), BASE_URL ++ ("/qf/pools/") ++ pid ++ ("/contribute"), k,
           none⟩], CliResult.ok)) := by
  refine ⟨?_, ?_, ?_, ?_⟩
  · intro pid a hpid ha
    unfold contribute_qf
    rw [if_neg hpid, if_pos (Or.inr ha)]
  · intro pid a key hpid ha hkey
    have ham : 0 < a.mant := by
      simpa [DecNum.zero_mant, DecNum.zero_exp] using (DecNum.lt_iff 0 a).mp ha
    have hcond : ¬(a.mant = 0 ∨ a ≤ 0) := by
      rintro (h | h)
      · omega
      · have h2 := (DecNum.le_iff a 0).mp h
        simp [DecNum.zero_mant, DecNum.zero_exp] at h2
        omega
    have happ := apiRequest_trace env t ("POST")
      (("/qf/pools/") ++ pid ++ ("/contribute"))
      (some (Json.obj [(("amount"), Json.num a)])) key hkey
    unfold contribute_qf
    rw [if_neg hpid, if_neg hcond, happ]
    dsimp only
    split <;> rfl
  · intro k pid amt n hk hpid hamt hn
    simp [cmd_qf_contribute, hk, hpid, hamt, hn]
  · intro k pid amt hk hpid hamt hn
    simp [cmd_qf_contribute, hk, hpid, hamt, hn]

/-- C7 witness: a negative amount is rejected locally by the library with no
request while a positive one is sent in the body; the CLI sends the
fractional amount `2.5` as the exact number `2.5`, and a non-numeric CLI
amount still issues a request, with no body. -/
theorem C7_amount_validation_witness :
    contribute_qf ⟨some (""), some ("k"), FileState.absent⟩
      (fun _ => ⟨some 200, none⟩) ⟨("pool123"), -3⟩ =
      ([], Except.error ("amount must be a positive number")) ∧
    (contribute_qf ⟨some (""), some ("k"), FileState.absent⟩
      (fun _ => ⟨some 200, none⟩) ⟨("pool123"), 100⟩).1 =
      [mkRequest (Json.str ("k")) ("POST") ("/qf/pools/pool123/contribute")
        (some (Json.obj [(("amount"), Json.num 100)]))] ∧
    cmd_qf_contribute ("k") ("pool123") ("2.5") =
      ([⟨("POST"), ("https://www.moltbook.com/api/v1/qf/pools/pool123/contribute"),
         ("k"), some (Json.obj [(("amount"), Json.num ⟨25, 1⟩)])⟩], CliResult.ok) ∧
    cmd_qf_contribute ("k") ("pool123") ("xyz") =
      ([⟨("POST"), ("https://www.moltbook.com/api/v1/qf/pools/pool123/contribute"),
         ("k"), none⟩], CliResult.ok) :=
  ⟨(C7_amount_validation ⟨some (""), some ("k"), FileState.absent⟩
      (fun _ => ⟨some 200, none⟩)).1 ("pool123") (-3) (by decide) (by decide),
   (C7_amount_validation ⟨some (""), some ("k"), FileState.absent⟩
      (fun _ => ⟨some 200, none⟩)).2.1 ("pool123") 100 (Json.str ("k"))
      (by decide) (by decide) rfl,
   (C7_amount_validation ⟨some (""), some ("k"), FileState.absent⟩
      (fun _ => ⟨some 200, none⟩)).2.2.1 ("k") ("pool123") ("2.5") ⟨25, 1⟩
      (by decide) (by decide) (by decide) rfl,
   (C7_amount_validation ⟨some (""), some ("k"), FileState.absent⟩
      (fun _ => ⟨some 200, none⟩)).2.2.2 ("k") ("pool123") ("xyz")
      (by decide) (by decide) (by decide) rfl⟩

/-- C7 counterexample to the claim as stated: the CLI contribution command
sends a negative amount to the server — `qf_contribute pool123 -5` issues one
POST whose body is `{"amount": -5}` instead of failing locally. -/
theorem C7_counterexample :
    cmd_qf_contribute ("k") ("pool123") ("-5") =
      ([⟨("POST"), ("https://www.moltbook.com/api/v1/qf/pools/pool123/contribute"),
         ("k"), some (Json.obj [(("amount"), Json.num (-5))])⟩], CliResult.ok) := by
  rfl

theorem utf8Bytes_lt (c : Char) : ∀ b ∈ utf8Bytes c, b < 256 := by
  intro b hb
  unfold utf8Bytes at hb
  dsimp only at hb
  split at hb <;> [skip; split at hb] <;> [skip; skip; split at hb] <;>
    simp at hb <;> omega

theorem hexDigitUpper_unreserved (n : Nat) (h : n < 16) :
    isUriUnreserved (hexDigitUpper n) = true := by
  interval_cases n <;> decide

theorem percentEncodeChar_mem (c : Char) :
    ∀ d ∈ percentEncodeChar c, isUriUnreserved d = true ∨ d = Char.ofNat 37 := by
  intro d hd
  unfold percentEncodeChar at hd
  simp only [List.mem_flatMap] at hd
  obtain ⟨b, hb, hd⟩ := hd
  have hlt := utf8Bytes_lt c b hb
  simp only [List.mem_cons, List.not_mem_nil, or_false] at hd
  rcases hd with h | h | h
  · right; exact h
  · left; rw [h]; exact hexDigitUpper_unreserved _ (by omega)
  · left; rw [h]; exact hexDigitUpper_unreserved _ (by omega)

theorem jqHexDigitUpper_unreserved (n : Nat) (h : n < 16) :
    isJqUriUnreserved (hexDigitUpper n) = true := by
  interval_cases n <;> decide

theorem jqPercentEncodeChar_mem (c : Char) :
    ∀ d ∈ percentEncodeChar c, isJqUriUnreserved d = true ∨ d = Char.ofNat 37 := by
  intro d hd
  unfold percentEncodeChar at hd
  simp only [List.mem_flatMap] at hd
  obtain ⟨b, hb, hd⟩ := hd
  have hlt := utf8Bytes_lt c b hb
  simp only [List.mem_cons, List.not_mem_nil, or_false] at hd
  rcases hd with h | h | h
  · right; exact h
  · left; rw [h]; exact jqHexDigitUpper_unreserved _ (by omega)
  · left; rw [h]; exact jqHexDigitUpper_unreserved _ (by omega)

/-- C8 (amended): the search-query value is percent-encoded before it is
placed in the request URL — every character of the library's
`encodeURIComponent q` and of the CLI's `jqUri q` (jq's `@uri`) is an
unreserved character or `%`, so no literal space and no literal `&` can
appear, and the search URL is the fixed template around the encoded value.
Query-parameter values other than the search query, however, are interpolated
with no encoding at all — the CLI's `agent_info` name, the CLI's `feed` sort
key, and the sort key of the library's community-scoped posts path — see the
counterexample. -/
theorem C8_percent_encoding (q : String) :
    (∀ c ∈ (encodeURIComponent q).data,
      isUriUnreserved c = true ∨ c = Char.ofNat 37) ∧
    (Char.ofNat 32) ∉ (encodeURIComponent q).data ∧
    (Char.ofNat 38) ∉ (encodeURIComponent q).data ∧
    (∀ c ∈ (jqUri q).data,
      isJqUriUnreserved c = true ∨ c = Char.ofNat 37) ∧
    (Char.ofNat 32) ∉ (jqUri q).data ∧
    (Char.ofNat 38) ∉ (jqUri q).data ∧
    ∀ limit : Int, searchPath q limit =
      ("/search?q=") ++ encodeURIComponent q ++ ("&limit=") ++ toString limit := by
  have main : ∀ c ∈ (encodeURIComponent q).data,
      isUriUnreserved c = true ∨ c = Char.ofNat 37 := by
    intro c hc
    unfold encodeURIComponent at hc
    simp only [List.mem_flatMap] at hc
    obtain ⟨x, hx, hc⟩ := hc
    by_cases hu : isUriUnreserved x = true
    · rw [if_pos hu] at hc
      simp only [List.mem_cons, List.not_mem_nil, or_false] at hc
      subst hc
      exact Or.inl hu
    · rw [if_neg hu] at hc
      exact percentEncodeChar_mem x c hc
  have mainJq : ∀ c ∈ (jqUri q).data,
      isJqUriUnreserved c = true ∨ c = Char.ofNat 37 := by
    intro c hc
    unfold jqUri at hc
    simp only [List.mem_flatMap] at hc
    obtain ⟨x, hx, hc⟩ := hc
    by_cases hu : isJqUriUnreserved x = true
    · rw [if_pos hu] at hc
      simp only [List.mem_cons, List.not_mem_nil, or_false] at hc
      subst hc
      exact Or.inl hu
    · rw [if_neg hu] at hc
      exact jqPercentEncodeChar_mem x c hc
  refine ⟨main, ?_, ?_, mainJq, ?_, ?_, fun _ => rfl⟩
  · intro h
    rcases main _ h with h2 | h2 <;> exact absurd h2 (by decide)
  · intro h
    rcases main _ h with h2 | h2 <;> exact absurd h2 (by decide)
  · intro h
    rcases mainJq _ h with h2 | h2 <;> exact absurd h2 (by decide)
  · intro h
    rcases mainJq _ h with h2 | h2 <;> exact absurd h2 (by decide)

/-- C8 witness: for the query `a b&c` the two encoders leave no space in
their output, and their output characters (such as `a`) are unreserved or
`%`. -/
theorem C8_percent_encoding_witness :
    (Char.ofNat 32) ∉ (encodeURIComponent ("a b&c")).data ∧
    (Char.ofNat 32) ∉ (jqUri ("a b&c")).data ∧
    (isUriUnreserved (Char.ofNat 97) = true ∨ Char.ofNat 97 = Char.ofNat 37) :=
  ⟨(C8_percent_encoding ("a b&c")).2.1,
   (C8_percent_encoding ("a b&c")).2.2.2.2.1,
   (C8_percent_encoding ("a b&c")).1 (Char.ofNat 97) (by decide)⟩

/-- C8 counterexample to the claim as stated: three query-parameter values
reach the final URL with no percent-encoding. The CLI's `agent_info` places
the agent name raw; the CLI's `feed` places the sort key raw; the library's
community-scoped posts path places its sort key raw — each final URL carries
a literal space and a literal `&` for the value `a b&c`, while
`encodeURIComponent` would have produced `a%20b%26c`. -/
theorem C8_counterexample :
    agentInfoUrl ("a b&c") =
      ("https://www.moltbook.com/api/v1/agents/profile?name=a b&c") ∧
    (Char.ofNat 32) ∈ (agentInfoUrl ("a b&c")).data ∧
    cmd_feed ("k") ("a b&c") ("") =
      ([⟨("GET"), ("https://www.moltbook.com/api/v1/posts?sort=a b&c&limit=25"),
         ("k"), none⟩], CliResult.ok) ∧
    (Char.ofNat 32) ∈
      (("https://www.moltbook.com/api/v1/posts?sort=a b&c&limit=25") : String).data ∧
    submoltPostsPath ("automation") ("a b&c") 25 =
      ("/submolts/automation/posts?sort=a b&c&limit=25") ∧
    (Char.ofNat 32) ∈ (submoltPostsPath ("automation") ("a b&c") 25).data ∧
    encodeURIComponent ("a b&c") = ("a%20b%26c") :=
  ⟨rfl, by decide, rfl, by decide, rfl, by decide, rfl⟩

/-- C9: the dispatcher distinguishes "no body" from "empty object body" — with
no `data` argument the issued request carries no body at all, and with an
explicit empty object the serialized body is exactly the two characters of an
empty JSON object; in particular `join_pool` sends the explicit empty-object
body while the bodiless GET verb `list_qf_pools` sends none. -/
theorem C9_body_presence (env : CredEnv) (t : Transport) (key : Json)
    (hkey : getApiKey env = Except.ok key) :
    (∀ m e, (apiRequest env t m e none).1 = [mkRequest key m e none] ∧
      (mkRequest key m e none).body = none) ∧
    (∀ m e, (apiRequest env t m e (some (Json.obj []))).1 =
        [mkRequest key m e (some (Json.obj []))] ∧
      (mkRequest key m e (some (Json.obj []))).body = some ("\x7b\x7d")) ∧
    (∀ pid, pid ≠ ("") → (join_pool env t pid).1 =
      [mkRequest key ("POST") (("/pools/") ++ pid ++ ("/join"))
        (some (Json.obj []))]) ∧
    (list_qf_pools env t).1 = [mkRequest key ("GET") ("/qf/pools") none] := by
  refine ⟨?_, ?_, ?_, ?_⟩
  · intro m e
    rw [apiRequest_trace env t m e none key hkey]
    exact ⟨rfl, rfl⟩
  · intro m e
    rw [apiRequest_trace env t m e (some (Json.obj [])) key hkey]
    exact ⟨rfl, rfl⟩
  · intro pid hpid
    have happ := apiRequest_trace env t ("POST") (("/pools/") ++ pid ++ ("/join"))
      (some (Json.obj [])) key hkey
    unfold join_pool
    rw [if_neg hpid, happ]
    dsimp only
    split <;> rfl
  · have happ := apiRequest_trace env t ("GET") ("/qf/pools") none key hkey
    unfold list_qf_pools
    rw [happ]
    dsimp only
    split <;> rfl

/-- C9 witness: a concrete credentialed state where `join_pool` puts the
serialized empty object on the wire and `list_qf_pools` writes no body. -/
theorem C9_body_presence_witness :
    (apiRequest ⟨some (""), some ("k"), FileState.absent⟩
      (fun _ => ⟨some 200, none⟩) ("POST") ("/pools/p7/join")
      (some (Json.obj []))).1 =
      [mkRequest (Json.str ("k")) ("POST") ("/pools/p7/join")
        (some (Json.obj []))] ∧
    (mkRequest (Json.str ("k")) ("POST") ("/pools/p7/join")
      (some (Json.obj []))).body = some ("\x7b\x7d") ∧
    (join_pool ⟨some (""), some ("k"), FileState.absent⟩
      (fun _ => ⟨some 200, none⟩) ("p7")).1 =
      [mkRequest (Json.str ("k")) ("POST") ("/pools/p7/join")
        (some (Json.obj []))] ∧
    (list_qf_pools ⟨some (""), some ("k"), FileState.absent⟩
      (fun _ => ⟨some 200, none⟩)).1 =
      [mkRequest (Json.str ("k")) ("GET") ("/qf/pools") none] :=
  ⟨((C9_body_presence ⟨some (""), some ("k"), FileState.absent⟩
      (fun _ => ⟨some 200, none⟩) (Json.str ("k")) rfl).2.1 ("POST")
      ("/pools/p7/join")).1,
   ((C9_body_presence ⟨some (""), some ("k"), FileState.absent⟩
      (fun _ => ⟨some 200, none⟩) (Json.str ("k")) rfl).2.1 ("POST")
      ("/pools/p7/join")).2,
   (C9_body_presence ⟨some (""), some ("k"), FileState.absent⟩
      (fun _ => ⟨some 200, none⟩) (Json.str ("k")) rfl).2.2.1 ("p7") (by decide),
   (C9_body_presence ⟨some (""), some ("k"), FileState.absent⟩
      (fun _ => ⟨some 200, none⟩) (Json.str ("k")) rfl).2.2.2⟩

/-- C10: `total_results` counts only the search response's own posts, agents
and submolts; the community-scoped posts merged into the returned `posts`
array are not counted. Hence with a submolt filter whose scoped call succeeds
with a non-empty post list, the returned `posts` array is strictly longer
than `total_results` minus the agent and submolt counts. -/
theorem C10_total_results (env : CredEnv) (t : Transport) (key : Json)
    (q s : String) (ps sp ags ss : List Json) (p0 : Json)
    (hs : s ≠ (""))
    (hkey : getApiKey env = Except.ok key)
    (h1 : t (mkRequest key ("GET") (searchPath q 25) none) =
      ⟨some 200, some (Json.obj [(("posts"), Json.arr ps),
        (("agents"), Json.arr ags), (("submolts"), Json.arr ss)])⟩)
    (h2 : t (mkRequest key ("GET") (submoltPostsPath s ("hot") 25) none) =
      ⟨some 200, some (Json.obj [(("posts"), Json.arr (p0 :: sp))])⟩) :
    discover_opportunities env t ⟨q, none, none, some s⟩ =
      ([mkRequest key ("GET") (searchPath q 25) none,
        mkRequest key ("GET") (submoltPostsPath s ("hot") 25) none],
       Except.ok ⟨ps ++ (p0 :: sp), Json.arr ags, Json.arr ss,
         (ps.length : DecNum) + (ags.length : DecNum) + (ss.length : DecNum)⟩) ∧
    ∀ dr, (discover_opportunities env t ⟨q, none, none, some s⟩).2 =
        Except.ok dr →
      (dr.posts.length : DecNum) >
        dr.total_results - (ags.length : DecNum) - (ss.length : DecNum) := by
  have happ1 := apiRequest_trace env t ("GET") (searchPath q 25) none key hkey
  have happ2 := apiRequest_trace env t ("GET") (submoltPostsPath s ("hot") 25)
    none key hkey
  have main : discover_opportunities env t ⟨q, none, none, some s⟩ =
      ([mkRequest key ("GET") (searchPath q 25) none,
        mkRequest key ("GET") (submoltPostsPath s ("hot") 25) none],
       Except.ok ⟨ps ++ (p0 :: sp), Json.arr ags, Json.arr ss,
         (ps.length : DecNum) + (ags.length : DecNum) + (ss.length : DecNum)⟩) := by
    unfold discover_opportunities
    dsimp only
    simp only [Option.getD_none]
    rw [happ1, h1]
    unfold discoverSubmoltPosts
    rw [if_pos hs, happ2, h2]
    simp only [handleEnd, statusOk, optTruthy, Json.jsTruthy, errMsg]
    norm_num
    unfold discoverAssemble
    simp [Json.jsField, jsOrEmptyArr, spreadJs, lengthOr0, Json.jsTruthy,
      List.find?]
  refine ⟨main, ?_⟩
  intro dr h
  rw [main] at h
  simp only [Except.ok.injEq] at h
  subst h
  dsimp only
  rw [GT.gt, DecNum.lt_iff]
  simp only [DecNum.sub_def, DecNum.add_def, DecNum.neg_def, DecNum.natCast_mant,
    DecNum.natCast_exp, Nat.add_zero, DecNum.canon_exp_zero, pow_zero, mul_one,
    List.length_append, List.length_cons]
  push_cast
  omega

/-- C10 witness: a search answering zero posts/agents/submolts plus a scoped
call answering one post yields a one-element `posts` array but
`total_results = 0`, so the returned posts outnumber the counted ones. -/
theorem C10_total_results_witness :
    (discover_opportunities ⟨some (""), some ("k"), FileState.absent⟩
        (fun r => if r.path = ("/api/v1/submolts/automation/posts?sort=hot&limit=25")
          then ⟨some 200, some (Json.obj [(("posts"), Json.arr [Json.obj []])])⟩
          else ⟨some 200, some (Json.obj [(("posts"), Json.arr []),
            (("agents"), Json.arr []), (("submolts"), Json.arr [])])⟩)
        ⟨("bounty"), none, none, some ("automation")⟩).2 =
      Except.ok ⟨[Json.obj []], Json.arr [], Json.arr [], 0⟩ ∧
    ((⟨[Json.obj []], Json.arr [], Json.arr [], 0⟩ : DiscoverResult).posts.length : DecNum) >
      (⟨[Json.obj []], Json.arr [], Json.arr [], 0⟩ : DiscoverResult).total_results
        - 0 - 0 := by
  have h := C10_total_results ⟨some (""), some ("k"), FileState.absent⟩
    (fun r => if r.path = ("/api/v1/submolts/automation/posts?sort=hot&limit=25")
      then ⟨some 200, some (Json.obj [(("posts"), Json.arr [Json.obj []])])⟩
      else ⟨some 200, some (Json.obj [(("posts"), Json.arr []),
        (("agents"), Json.arr []), (("submolts"), Json.arr [])])⟩)
    (Json.str ("k")) ("bounty") ("automation") [] [] [] [] (Json.obj [])
    (by decide) rfl (by rfl) (by rfl)
  exact ⟨by rw [h.1]; rfl,
    h.2 ⟨[Json.obj []], Json.arr [], Json.arr [], 0⟩ (by rw [h.1]; rfl)⟩
